import Mathlib

/-!
# TruthGuard — verification of the dataset ingestion scripts

Shallow embedding of `src/data_process.py` (and the loading behaviour it
invokes through `pandas.read_csv(path, header=None, names=column_names)`).

Modelling conventions:

* An input file is modelled after CSV tokenisation: a `List (List String)`,
  one entry per data line, each entry the raw comma-separated fields of
  that line.  Blank lines are skipped by the reader and therefore never
  appear in this list.
* A cell of the materialised table is a `Field := Option String`:
  `none` is pandas' `NaN` (missing value); an empty source field is read
  as missing, any other field is kept as its raw text.
* `read_csv` models the call on line 10 of `data_process.py`
  (`header=None, names=column_names`):
  - an input with no data rows raises `EmptyDataError`;
  - the expected field count is taken from the first row; a later row
    with MORE fields raises a `ParserError`;
  - a row with fewer fields than the number of column names is padded on
    the right with missing values;
  - if the rows are wider than the 14 column names, the extra leading
    fields become the index and only the trailing 14 fields are kept as
    the named columns.
  No other check is performed: there is no schema-mismatch error, no row
  validation, no rejected-row side list and no id-uniqueness check.
* `load` wraps `read_csv` behind a file system modelled as a partial map
  from paths to tokenised contents; an unresolvable path raises
  `FileNotFoundError` (no dataset is produced).
* `summarize` models lines 13–14 (`data.head()` and `data.info()`): a
  preview of the first `n` records (`head` defaults to `n = 5`) together
  with, per column, its name, its non-missing count and its inferred
  dtype (`int64` for an all-integer column, `float64` for a numeric
  column possibly containing missing values, `object` otherwise).
* The text-cleaning block (lines 21–28) is commented out in the source
  and hence has no counterpart acting on the data: the loaded records
  are exactly the parsed fields.
-/

namespace TruthGuard

/-- The 14 column names of `data_process.py`, lines 3–7. -/
def column_names : List String :=
  ["id", "label", "statement", "subject", "speaker", "job_title",
   "state_info", "party_affiliation", "barely_true_counts", "false_counts",
   "half_true_counts", "mostly_true_counts", "pants_on_fire_counts", "context"]

/-- A cell of the materialised table; `none` is a missing value (NaN). -/
abbrev Field := Option String

/-- How `read_csv` materialises one source field: an empty field becomes a
missing value, any other field keeps its raw text. -/
def toField (s : String) : Field :=
  if s = "" then none else some s

/-- The in-memory table produced by `read_csv`: the column names and the
ordered records, each record holding one field per column. -/
structure Dataset where
  colNames : List String
  records : List (List Field)
deriving Repr, DecidableEq

/-- The error kinds the load path of `data_process.py` can raise. -/
inductive LoadError where
  | emptyDataError
  | parserError
  | fileNotFoundError
deriving Repr, DecidableEq

/-- Materialise one tokenised row at width `w`: missing trailing fields are
filled with missing values. -/
def padRow (w : Nat) (r : List String) : List Field :=
  r.map toField ++ List.replicate (w - r.length) none

/-- `pandas.read_csv(path, header=None, names=names)` on the tokenised
contents `rows` (see the module docstring for the modelled behaviours). -/
def read_csv (names : List String) (rows : List (List String)) :
    Except LoadError Dataset :=
  match rows with
  | [] => .error .emptyDataError
  | r0 :: _ =>
    if rows.any (fun r => r0.length < r.length) then
      .error .parserError
    else if r0.length ≤ names.length then
      .ok ⟨names, rows.map (padRow names.length)⟩
    else
      .ok ⟨names, rows.map (fun r => (padRow r0.length r).drop (r0.length - names.length))⟩

/-- The hardcoded input path of `data_process.py`, line 10. -/
def train_csv_path : String :=
  "/Users/saitarunaditya/Desktop/TruthGuard/liar_dataset/train.csv"

/-- Reading the file behind `read_csv`: the file system is a partial map
from paths to tokenised contents, and an unresolvable path raises
`FileNotFoundError` with no dataset produced. -/
def load (fs : String → Option (List (List String))) (path : String)
    (names : List String) : Except LoadError Dataset :=
  match fs path with
  | none => .error .fileNotFoundError
  | some rows => read_csv names rows

/-- The module-level `data` value of `data_process.py`, line 10, as a
function of the modelled file system. -/
def data (fs : String → Option (List (List String))) : Except LoadError Dataset :=
  load fs train_csv_path column_names

/-- Result discriminator: did the load return a table? -/
def isOk {ε α : Type} : Except ε α → Bool
  | .ok _ => true
  | .error _ => false

/-- Drop a leading sign character, as numeric literal parsing does. -/
def stripSign (cs : List Char) : List Char :=
  match cs with
  | c :: rest => if c = '-' ∨ c = '+' then rest else cs
  | [] => []

/-- Does the raw text of a field parse as an integer literal? -/
def isIntLit (s : String) : Bool :=
  let t := stripSign s.toList
  !t.isEmpty && t.all Char.isDigit

/-- Does the raw text of a field parse as a floating-point literal? -/
def isFloatLit (s : String) : Bool :=
  let t := stripSign s.toList
  t.all (fun c => c.isDigit || c = '.') && t.any Char.isDigit &&
    decide (t.count '.' ≤ 1)

/-- The dtypes `data.info()` can report for a column of this table. -/
inductive Dtype where
  | int64
  | float64
  | object
deriving Repr, DecidableEq

/-- Is this cell a present integer? -/
def fieldIsInt : Field → Bool
  | some s => isIntLit s
  | none => false

/-- Is this cell numeric or missing? -/
def fieldIsNumOrNA : Field → Bool
  | some s => isIntLit s || isFloatLit s
  | none => true

/-- Column dtype inference: an all-integer column is `int64`, a numeric
column possibly containing missing values is `float64`, anything else
(including an empty table) is `object`. -/
def inferDtype (col : List Field) : Dtype :=
  if !col.isEmpty && col.all fieldIsInt then .int64
  else if !col.isEmpty && col.all fieldIsNumOrNA then .float64
  else .object

/-- The cells of column `i`, in record order. -/
def getColumn (d : Dataset) (i : Nat) : List Field :=
  d.records.map (fun r => r.getD i none)

/-- The number of non-missing cells of a column, as `data.info()` counts
them. -/
def nonNullCount (col : List Field) : Nat :=
  (col.filter Option.isSome).length

/-- One line of the `data.info()` report: a column's name, its non-missing
count and its inferred dtype. -/
structure ColumnInfo where
  name : String
  nonNull : Nat
  dtype : Dtype
deriving Repr, DecidableEq

/-- The summary printed by lines 13–14 of `data_process.py`: the `head`
preview plus the per-column `info` report. -/
structure Summary where
  preview : List (List Field)
  columns : List ColumnInfo
  numRows : Nat
deriving Repr, DecidableEq

/-- `DataFrame.head`'s default preview length. -/
def head_default_n : Nat := 5

/-- `data.head(n)` and `data.info()` over the loaded table. -/
def summarize (d : Dataset) (n : Nat) : Summary :=
  { preview := d.records.take n
    columns := (List.range d.colNames.length).map (fun i =>
      ⟨d.colNames.getD i "", nonNullCount (getColumn d i),
        inferDtype (getColumn d i)⟩)
    numRows := d.records.length }

/-- `data.head()` with the default preview length of 5. -/
def summarizeDefault (d : Dataset) : Summary :=
  summarize d head_default_n

/-- Field-wise equality of two records. -/
def recordFieldwiseEq (r1 r2 : List Field) : Bool :=
  r1.length = r2.length && (List.zip r1 r2).all (fun p => p.1 = p.2)

/-- Field-wise equality of two datasets: same column names, same number of
records, and corresponding records equal field by field. -/
def datasetFieldwiseEq (d1 d2 : Dataset) : Bool :=
  d1.colNames = d2.colNames &&
  d1.records.length = d2.records.length &&
  (List.zip d1.records d2.records).all (fun p => recordFieldwiseEq p.1 p.2)

/-! ## Helper lemmas shared by the claim theorems -/

lemma padRow_of_length_eq (w : Nat) (r : List String) (h : r.length = w) :
    padRow w r = r.map toField := by
  simp [padRow, h]

lemma read_csv_eq_of_bounded (r0 : List String) (rest : List (List String))
    (h1 : ∀ r ∈ r0 :: rest, r.length ≤ r0.length) (h2 : r0.length ≤ 14) :
    read_csv column_names (r0 :: rest) =
      .ok ⟨column_names, (r0 :: rest).map (padRow 14)⟩ := by
  have hany : ((r0 :: rest).any (fun r => decide (r0.length < r.length))) = false := by
    rw [List.any_eq_false]
    intro r hr
    simpa using h1 r hr
  have h2' : r0.length ≤ column_names.length := h2
  simp [read_csv, hany, h2', column_names]
  intro hlt
  exact absurd hlt (Nat.not_lt.mpr h2)

lemma read_csv_eq_of_all14 (r0 : List String) (rest : List (List String))
    (h : ∀ r ∈ r0 :: rest, r.length = 14) :
    read_csv column_names (r0 :: rest) =
      .ok ⟨column_names, (r0 :: rest).map (List.map toField)⟩ := by
  have h0 : r0.length = 14 := h r0 (List.mem_cons_self _ _)
  have h1 : ∀ r ∈ r0 :: rest, r.length ≤ r0.length := by
    intro r hr
    rw [h r hr, h0]
  rw [read_csv_eq_of_bounded r0 rest h1 (le_of_eq h0)]
  congr 1
  exact congrArg (Dataset.mk column_names)
    (List.map_congr_left (fun r hr => padRow_of_length_eq 14 r (h r hr)))

lemma getD_map_of_lt {α β : Type} (f : α → β) (l : List α) (i : Nat)
    (hi : i < l.length) (d1 : β) (d2 : α) :
    (l.map f).getD i d1 = f (l.getD i d2) := by
  induction l generalizing i with
  | nil => simp at hi
  | cons a as ih =>
    cases i with
    | zero => rfl
    | succ k => simpa [List.getD] using ih k (by simpa using hi)

lemma getD_map_toField_of_lt (r : List String) (j : Nat) (hj : j < r.length) :
    (r.map toField).getD j none = toField (r.getD j "") :=
  getD_map_of_lt toField r j hj none ""

lemma zip_self_all {α : Type} (p : α × α → Bool) (hp : ∀ a, p (a, a) = true)
    (l : List α) : (List.zip l l).all p = true := by
  induction l with
  | nil => rfl
  | cons a as ih => simp [hp a, ih]

lemma recordFieldwiseEq_refl (r : List Field) :
    recordFieldwiseEq r r = true := by
  simp only [recordFieldwiseEq, Bool.and_eq_true, decide_eq_true_eq,
    eq_self_iff_true]
  exact ⟨trivial, zip_self_all _ (fun a => by simp) r⟩

lemma datasetFieldwiseEq_refl (d : Dataset) :
    datasetFieldwiseEq d d = true := by
  simp only [datasetFieldwiseEq, Bool.and_eq_true, decide_eq_true_eq,
    eq_self_iff_true]
  exact ⟨⟨trivial, trivial⟩, zip_self_all _ recordFieldwiseEq_refl d.records⟩

lemma toField_of_ne (s : String) (h : s ≠ "") : toField s = some s := by
  simp [toField, h]

lemma nonNullCount_getColumn (d : Dataset) (i : Nat) :
    nonNullCount (getColumn d i) =
      (d.records.filter (fun r => (r.getD i none).isSome)).length := by
  simp only [nonNullCount, getColumn, List.filter_map, List.length_map]
  rfl

/-! ## Claim theorems -/

/-- C4: the Schema Definition is the constant `column_names`, a fixed
ordered list of exactly 14 column names — id, label, statement, subject,
speaker, job_title, state_info, party_affiliation, the five counter
fields, and context, in that order. -/
theorem column_names_is_fixed_14_schema :
    column_names =
      ["id", "label", "statement", "subject", "speaker", "job_title",
       "state_info", "party_affiliation", "barely_true_counts",
       "false_counts", "half_true_counts", "mostly_true_counts",
       "pants_on_fire_counts", "context"] ∧
    column_names.length = 14 :=
  ⟨rfl, rfl⟩

/-- A file system holding an empty (zero-row) file at the script's
hardcoded input path. -/
def emptyFileFS : String → Option (List (List String)) :=
  fun p => if p = train_csv_path then some [] else none

/-- C5 counterexample: loading an empty (zero-row) file does not return a
zero-row Dataset to summarise — the load itself fails with
`EmptyDataError`, so `summarize` is never reached. -/
theorem empty_file_load_fails_not_zero_row_summary :
    data emptyFileFS = .error .emptyDataError := rfl

/-- C5 (amended): on an empty (zero-row) input file, `read_csv` raises
`EmptyDataError` instead of producing a Dataset, so no zero-row Summary is
ever produced. -/
theorem read_csv_empty_file_raises_emptyDataError (names : List String) :
    read_csv names [] = .error .emptyDataError := rfl

/-- C7: when the path is not readable (the file system does not resolve
it), `load` fails with `FileNotFoundError` and aborts entirely: no
(partial) Dataset is returned. -/
theorem load_unreadable_path_aborts
    (fs : String → Option (List (List String))) (path : String)
    (names : List String) (h : fs path = none) :
    load fs path names = .error .fileNotFoundError ∧
    ∀ d : Dataset, load fs path names ≠ .ok d := by
  constructor
  · simp [load, h]
  · intro d hd
    rw [load, h] at hd
    exact Except.noConfusion hd

/-- C7 witness: a file system resolving no path at all makes `load` abort
with `FileNotFoundError` and return no Dataset. -/
theorem load_unreadable_path_aborts_witness :
    load (fun _ => none) "train.csv" column_names = .error .fileNotFoundError ∧
    load (fun _ => none) "train.csv" column_names ≠ .ok ⟨column_names, []⟩ :=
  ⟨(load_unreadable_path_aborts (fun _ => none) "train.csv" column_names rfl).1,
   (load_unreadable_path_aborts (fun _ => none) "train.csv" column_names rfl).2
     ⟨column_names, []⟩⟩

/-- C10: whenever `read_csv` returns a Dataset, it has exactly one record
per data line of the input: no line is rejected or dropped, whatever its
label or counter values, so the Dataset's length equals the file's row
count. -/
theorem load_one_record_per_line (names : List String)
    (rows : List (List String)) (d : Dataset)
    (h : read_csv names rows = .ok d) :
    d.records.length = rows.length := by
  cases rows with
  | nil => simp [read_csv] at h
  | cons r0 rest =>
    rw [read_csv] at h
    split at h
    · exact Except.noConfusion h
    · split at h
      · cases h
        simp
      · cases h
        simp

/-- Input rows for the C10 witness: one row with a negative counter and a
nonstandard label, one short row. -/
def w10rows : List (List String) :=
  [["1", "weird-label", "s", "t", "sp", "j", "st", "p", "-3", "0", "0", "0",
    "0", "c"],
   ["2", "true", "s2", "t2"]]

/-- C10 witness: a concrete two-line file — one line with a negative
counter and one short line — loads to a Dataset of exactly two records. -/
theorem load_one_record_per_line_witness :
    (Dataset.records
      ⟨column_names, w10rows.map (padRow 14)⟩).length = w10rows.length :=
  load_one_record_per_line column_names w10rows
    ⟨column_names, w10rows.map (padRow 14)⟩ rfl

/-- A 13-field row (one field short of the schema length). -/
def c1row : List String :=
  ["1", "false", "s", "t", "sp", "j", "st", "p", "0", "0", "0", "0", "0"]

/-- C1 counterexample: a file whose single row has 13 fields (≠ 14) does
not fail with any schema-mismatch error — it loads successfully, the short
row padded with a missing value. -/
theorem short_row_file_loads_successfully :
    c1row.length = 13 ∧
    read_csv column_names [c1row] =
      .ok ⟨column_names, [c1row.map toField ++ [none]]⟩ :=
  ⟨rfl, rfl⟩

/-- C1 (amended): `read_csv` performs no field-count check against the
schema and has no schema-mismatch error: any file whose rows each have at
most as many fields as its first row (itself at most 14 fields wide) loads
successfully, rows with fewer than 14 fields being padded on the right
with missing values. -/
theorem read_csv_accepts_non_14_field_rows (r0 : List String)
    (rest : List (List String))
    (h1 : ∀ r ∈ r0 :: rest, r.length ≤ r0.length) (h2 : r0.length ≤ 14) :
    read_csv column_names (r0 :: rest) =
      .ok ⟨column_names, (r0 :: rest).map (padRow 14)⟩ :=
  read_csv_eq_of_bounded r0 rest h1 h2

/-- A 10-field row for the C1 witness. -/
def w1r0 : List String :=
  ["9", "half-true", "stmt", "topic", "sp", "job", "state", "party", "1", "2"]

/-- C1 witness: a concrete file whose only row has 10 fields loads
successfully, padded to the 14 schema columns. -/
theorem read_csv_accepts_non_14_field_rows_witness :
    read_csv column_names [w1r0] = .ok ⟨column_names, [padRow 14 w1r0]⟩ :=
  read_csv_accepts_non_14_field_rows w1r0 [] (by decide) (by decide)

/-- A well-formed 14-field row whose `barely_true_counts` field is the
negative value "-3". -/
def c2row : List String :=
  ["5", "false", "s", "t", "sp", "j", "st", "p", "-3", "0", "0", "0", "0", "c"]

/-- C2 counterexample: a row whose `barely_true_counts` field is "-3" is
NOT excluded from the Dataset: it is returned as a record (the loader has
no RejectedRows side list at all). -/
theorem negative_counter_row_is_included :
    read_csv column_names [c2row] = .ok ⟨column_names, [c2row.map toField]⟩ ∧
    (c2row.map toField).getD 8 none = some "-3" :=
  ⟨rfl, rfl⟩

/-- C2 (amended): the loader performs no counter-field validation and
keeps no RejectedRows side list: every 14-field row — whatever its five
counter fields hold, negative or non-numeric included — is returned
verbatim as a record of the Dataset. -/
theorem read_csv_no_counter_validation (r0 : List String)
    (rest : List (List String)) (h : ∀ r ∈ r0 :: rest, r.length = 14) :
    read_csv column_names (r0 :: rest) =
      .ok ⟨column_names, (r0 :: rest).map (List.map toField)⟩ :=
  read_csv_eq_of_all14 r0 rest h

/-- A 14-field row with a negative counter and a non-numeric counter. -/
def w2r0 : List String :=
  ["8", "pants-fire", "text", "topic", "sp", "job", "state", "party", "-7",
   "x", "0", "0", "0", "ctx"]

/-- C2 witness: a concrete row with counter fields "-7" and "x" is loaded
into the Dataset unchanged. -/
theorem read_csv_no_counter_validation_witness :
    read_csv column_names [w2r0] = .ok ⟨column_names, [w2r0.map toField]⟩ :=
  read_csv_no_counter_validation w2r0 [] (by decide)

/-- First of two rows sharing the id "7". -/
def c3rowA : List String :=
  ["7", "true", "sA", "t", "sp", "j", "st", "p", "0", "0", "0", "0", "0", "cA"]

/-- Second of two rows sharing the id "7". -/
def c3rowB : List String :=
  ["7", "false", "sB", "t", "sp", "j", "st", "p", "1", "0", "0", "0", "0", "cB"]

/-- The Dataset the duplicate-id file loads to. -/
def c3ds : Dataset :=
  ⟨column_names, [c3rowA.map toField, c3rowB.map toField]⟩

/-- C3 counterexample: a file whose two rows share the id "7" loads to a
Dataset keeping both records, so the id values of the returned Dataset are
not pairwise distinct. -/
theorem duplicate_ids_both_loaded :
    read_csv column_names [c3rowA, c3rowB] = .ok c3ds ∧
    ¬ (getColumn c3ds 0).Nodup :=
  ⟨rfl, by decide⟩

/-- C3 (amended): the loader performs no id-uniqueness check: the id
column of the returned Dataset is exactly the list of first fields of the
input rows, so ids are pairwise distinct only when the file's first fields
already are. -/
theorem load_ids_are_input_first_fields (r0 : List String)
    (rest : List (List String)) (h : ∀ r ∈ r0 :: rest, r.length = 14)
    (d : Dataset) (hd : read_csv column_names (r0 :: rest) = .ok d) :
    getColumn d 0 = (r0 :: rest).map (fun r => toField (r.getD 0 "")) := by
  rw [read_csv_eq_of_all14 r0 rest h] at hd
  have hd' : d = ⟨column_names, (r0 :: rest).map (List.map toField)⟩ :=
    (Except.ok.inj hd).symm
  subst hd'
  simp only [getColumn, List.map_map]
  apply List.map_congr_left
  intro r hr
  exact getD_map_toField_of_lt r 0 (by rw [h r hr]; norm_num)

/-- First row of the C3 witness file, id "1". -/
def w3r0 : List String :=
  ["1", "true", "s1", "t", "sp", "j", "st", "p", "0", "0", "0", "0", "0", "c"]

/-- Second row of the C3 witness file, id "2". -/
def w3r1 : List String :=
  ["2", "false", "s2", "t", "sp", "j", "st", "p", "0", "0", "0", "0", "0", "c"]

/-- C3 witness: a two-row file with ids "1" and "2" loads to a Dataset
whose id column is exactly those two ids in file order. -/
theorem load_ids_are_input_first_fields_witness :
    getColumn ⟨column_names, [w3r0.map toField, w3r1.map toField]⟩ 0 =
      [some "1", some "2"] :=
  load_ids_are_input_first_fields w3r0 [w3r1] (by decide) _ rfl

/-- C6: loading the same file twice is deterministic — the two returned
Datasets are field-wise equal (same column names, same number of records,
and every field of every record of the second load equals the
corresponding field of the first). -/
theorem load_idempotent (fs : String → Option (List (List String)))
    (path : String) (names : List String) (d1 d2 : Dataset)
    (h1 : load fs path names = .ok d1) (h2 : load fs path names = .ok d2) :
    datasetFieldwiseEq d1 d2 = true := by
  have hd : d1 = d2 := Except.ok.inj (h1.symm.trans h2)
  rw [hd]
  exact datasetFieldwiseEq_refl d2

/-- A well-formed row for the C6 witness file. -/
def w6row : List String :=
  ["3", "true", "claim text", "tax", "sp", "gov", "tx", "rep", "1", "2",
   "3", "4", "5", "intv"]

/-- The C6 witness file system: one one-row file at the hardcoded path. -/
def w6fs : String → Option (List (List String)) :=
  fun p => if p = train_csv_path then some [w6row] else none

/-- The Dataset the C6 witness file loads to. -/
def w6ds : Dataset := ⟨column_names, [w6row.map toField]⟩

/-- C6 witness: loading the concrete one-row file twice yields field-wise
equal Datasets. -/
theorem load_idempotent_witness : datasetFieldwiseEq w6ds w6ds = true :=
  load_idempotent w6fs train_csv_path column_names w6ds w6ds rfl rfl

/-- C8: on any table with the 14 schema columns, the summary reports, for
each of the 14 columns, its name, its count of non-missing values and its
inferred dtype, together with a preview of the first `n` records, where
the default preview length is 5. -/
theorem summarize_reports_types_counts_and_preview (d : Dataset) (n : Nat)
    (h : d.colNames = column_names) :
    (summarize d n).columns.length = 14 ∧
    (summarize d n).columns = (List.range 14).map (fun i =>
      ⟨column_names.getD i "",
       (d.records.filter (fun r => (r.getD i none).isSome)).length,
       inferDtype (getColumn d i)⟩) ∧
    (summarize d n).preview = d.records.take n ∧
    summarizeDefault d = summarize d 5 := by
  refine ⟨?_, ?_, rfl, rfl⟩
  · simp [summarize, h, column_names]
  · simp only [summarize, h]
    have hlen : column_names.length = 14 := rfl
    rw [hlen]
    apply List.map_congr_left
    intro i _
    rw [nonNullCount_getColumn]

/-- A well-formed row for the C8 witness table. -/
def w8row : List String :=
  ["4", "mostly-true", "some text", "econ", "sp", "sen", "va", "dem", "0",
   "1", "2", "3", "4", "radio"]

/-- The C8 witness table. -/
def w8ds : Dataset := ⟨column_names, [w8row.map toField]⟩

/-- C8 witness: the summary of a concrete one-record table has 14 column
entries and previews its records (all of them, being fewer than 5). -/
theorem summarize_reports_types_counts_and_preview_witness :
    (summarize w8ds 5).columns.length = 14 ∧
    (summarize w8ds 5).preview = w8ds.records.take 5 :=
  ⟨(summarize_reports_types_counts_and_preview w8ds 5 rfl).1,
   (summarize_reports_types_counts_and_preview w8ds 5 rfl).2.2.1⟩

/-- C9: the records of a loaded Dataset have exactly the 14 schema fields
(no `cleaned_text` or `tokens` column is added), and every record's
statement field (column index 2) is the input file's field verbatim — no
lowercasing, stripping or tokenisation is applied. -/
theorem statement_stored_verbatim (r0 : List String)
    (rest : List (List String)) (h : ∀ r ∈ r0 :: rest, r.length = 14)
    (d : Dataset) (hd : read_csv column_names (r0 :: rest) = .ok d) :
    (∀ rec ∈ d.records, rec.length = 14) ∧
    ∀ i : Nat, ((r0 :: rest).getD i []).getD 2 "" ≠ "" →
      (d.records.getD i []).getD 2 none =
        some (((r0 :: rest).getD i []).getD 2 "") := by
  rw [read_csv_eq_of_all14 r0 rest h] at hd
  have hd' : d = ⟨column_names, (r0 :: rest).map (List.map toField)⟩ :=
    (Except.ok.inj hd).symm
  subst hd'
  constructor
  · intro rec hrec
    simp only [List.mem_map] at hrec
    obtain ⟨r, hr, rfl⟩ := hrec
    simp [h r hr]
  · intro i hi
    by_cases hlt : i < (r0 :: rest).length
    · have hrow : ((r0 :: rest).getD i []) ∈ r0 :: rest := by
        rw [List.getD_eq_getElem _ _ hlt]
        exact List.getElem_mem hlt
      have h2 : (2 : Nat) < ((r0 :: rest).getD i []).length := by
        rw [h _ hrow]
        norm_num
      show (((r0 :: rest).map (List.map toField)).getD i []).getD 2 none = _
      rw [getD_map_of_lt (List.map toField) (r0 :: rest) i hlt [] []]
      rw [getD_map_of_lt toField _ 2 h2 none ""]
      exact toField_of_ne _ hi
    · exfalso
      apply hi
      rw [List.getD_eq_default _ _ (Nat.le_of_not_lt hlt)]
      rfl

/-- The single row of the C9 witness file, with the spec's scenario
statement. -/
def w9row : List String :=
  ["1", "true", "Taxes were cut.", "tax", "sp", "gov", "tx", "rep", "0",
   "0", "0", "0", "0", "speech"]

/-- The Dataset the C9 witness file loads to. -/
def w9ds : Dataset := ⟨column_names, [w9row.map toField]⟩

/-- C9 witness: loading a one-row file whose statement is
"Taxes were cut." stores that statement verbatim — capitals and
punctuation intact. -/
theorem statement_stored_verbatim_witness :
    (w9ds.records.getD 0 []).getD 2 none = some "Taxes were cut." :=
  (statement_stored_verbatim w9row [] (by decide) w9ds rfl).2 0 (by decide)

end TruthGuard
